import Mathlib

/-!
Verification of the command-line training entry point in tools/train.py.

The script is orchestration glue: it parses arguments, loads and merges a
configuration, sets up a work directory and a log file, then runs a seed
loop that builds a classifier and a dataset, trains, tests, and finally
aggregates the collected accuracy metrics.

The embedding below follows the source line by line.  External collaborator
calls (set_random_seed, build_classifier, init_weights, build_dataset,
train_model, test_model, init_dist, mkdir_or_exist, config dump, logger
creation, logging) are recorded as events in an execution trace, carrying
exactly the arguments the source passes to them; the values test_model
returns in iteration i are supplied by an oracle indexed by i.  numpy
means are modelled exactly over the rationals; np.std is modelled by its
square (the population variance), which determines the standard deviation
and keeps all arithmetic exact.  Path canonicalisation (osp.abspath) and
incidental effects that no claim touches (the cudnn benchmark switch, the
LOCAL_RANK environment variable, the resume_from passthrough, the workflow
and checkpoint metadata that flow only into opaque collaborators) are not
modelled.
-/

/-- Python truthiness of the no_validate argument: the argparse default is
the boolean False (modelled as none); a supplied value is a string, truthy
exactly when non-empty. -/
def pyTruthy : Option String → Bool
  | none => false
  | some s => !(s == (""))

/-- Device normalisation from main: the expression
if args.device == cpu then cpu else cuda, used for both train_model and
test_model (source lines 152 and 169). -/
def devOf (d : String) : String :=
  if d = ("cpu") then ("cpu") else ("cuda")

/-- osp.basename: the final path component. -/
def baseName (p : String) : String :=
  (p.splitOn ("/")).getLastD p

/-- osp.splitext first component: drop the final extension if there is one. -/
def fileStem (s : String) : String :=
  let parts := s.splitOn (".")
  if parts.length ≤ 1 then s else String.intercalate (".") parts.dropLast

/-- A broken-down local time, as produced by time.localtime. -/
structure ClockTime where
  year : Nat
  month : Nat
  day : Nat
  hour : Nat
  minute : Nat
  second : Nat

/-- Two zero-padded decimal digits, as strftime prints an in-range field. -/
def pad2 (n : Nat) : List Char :=
  [Nat.digitChar (n / 10 % 10), Nat.digitChar (n % 10)]

/-- Four zero-padded decimal digits, as strftime prints an in-range year. -/
def pad4 (n : Nat) : List Char :=
  [Nat.digitChar (n / 1000 % 10), Nat.digitChar (n / 100 % 10),
   Nat.digitChar (n / 10 % 10), Nat.digitChar (n % 10)]

/-- The characters of strftime applied to the source format string
from line 103 of tools/train.py: year, month, day, an underscore,
hour, minute, second. -/
def tsChars (t : ClockTime) : List Char :=
  pad4 t.year ++ pad2 t.month ++ pad2 t.day ++ ['_'] ++
    pad2 t.hour ++ pad2 t.minute ++ pad2 t.second

/-- The timestamp string used to name the log file. -/
def timestampStr (t : ClockTime) : String :=
  String.mk (tsChars t)

/-- A character list has the shape YYYYMMDD_HHMMSS: fifteen characters,
digits everywhere except an underscore at index eight. -/
def tsWellFormed : List Char → Bool
  | [y1, y2, y3, y4, m1, m2, d1, d2, sep, h1, h2, n1, n2, s1, s2] =>
      y1.isDigit && y2.isDigit && y3.isDigit && y4.isDigit &&
      m1.isDigit && m2.isDigit && d1.isDigit && d2.isDigit &&
      (sep == '_') &&
      h1.isDigit && h2.isDigit && n1.isDigit && n2.isDigit &&
      s1.isDigit && s2.isDigit
  | _ => false

/-- np.mean over a vector, exactly over the rationals. -/
def npMeanQ (xs : List ℚ) : ℚ :=
  xs.sum / (xs.length : ℚ)

/-- The square of np.std over a vector: the population variance, the mean
of the squared deviations from the mean.  np.std itself is the square root
of this quantity; the square determines it and keeps arithmetic exact. -/
def npVarQ (xs : List ℚ) : ℚ :=
  npMeanQ (xs.map (fun x => (x - npMeanQ xs) * (x - npMeanQ xs)))

/-- Column j of a rectangular list of rows (out-of-range entries read 0;
the script only forms columns of rectangular data). -/
def colAt (rows : List (List ℚ)) (j : Nat) : List ℚ :=
  rows.map (fun r => r.getD j 0)

/-- np.mean with axis 0: the element-wise mean over the rows. -/
def meanAxis0 (rows : List (List ℚ)) : List ℚ :=
  (List.range ((rows.headD []).length)).map (fun j => npMeanQ (colAt rows j))

/-- The square of np.std with axis 0: the element-wise population variance
over the rows. -/
def varAxis0 (rows : List (List ℚ)) : List ℚ :=
  (List.range ((rows.headD []).length)).map (fun j => npVarQ (colAt rows j))

/-- The aggregated numbers printed at the end of main
(source lines 178 to 182).  Each std slot records the squared standard
deviation the corresponding print statement computes. -/
structure RunSummary where
  oa_mean : ℚ
  oa_std_sq : ℚ
  aa_mean : ℚ
  aa_std_sq : ℚ
  kappa_mean : ℚ
  kappa_std_sq : ℚ
  elem_mean : List ℚ
  elem_std_sq : List ℚ

/-- The final aggregation over the four accumulator lists, transcribed from
source lines 178 to 182.  Line 179 of the source interpolates np.std(OA),
not np.std(AA), into the AA line, which is reproduced here. -/
def summaryOf (OA AA KAPPA : List ℚ) (EL : List (List ℚ)) : RunSummary :=
  { oa_mean := npMeanQ OA
    oa_std_sq := npVarQ OA
    aa_mean := npMeanQ AA
    aa_std_sq := npVarQ OA
    kappa_mean := npMeanQ KAPPA
    kappa_std_sq := npVarQ KAPPA
    elem_mean := meanAxis0 EL
    elem_std_sq := varAxis0 EL }

/-- The four scalar and vector metrics test_model returns in one
iteration (source line 161). -/
structure IterResult where
  overall_acc : ℚ
  average_acc : ℚ
  kappa : ℚ
  each_acc : List ℚ
deriving DecidableEq

/-- The ambient world of one invocation: the distributed world size
reported by get_dist_info, the wall-clock time read by time.localtime,
and the oracle giving the metrics test_model returns in iteration i. -/
structure RunEnv where
  worldSize : Nat
  now : ClockTime
  results : Nat → IterResult

/-- The raw command line: for each option, the value the user supplied,
or none when the option is absent.  deterministic models a store_true
flag, so it is a plain Bool. -/
structure CliArgs where
  config : Option String
  work_dir : Option String
  resume_from : Option String
  no_validate : Option String
  device : Option String
  gpus : Option Nat
  gpu_ids : Option (List Nat)
  seed : Option Int
  deterministic : Bool
  options : Option (List (String × Int))
  launcher : Option String

/-- The argparse result after defaults are applied (parse_args,
source lines 18 to 62).  no_validate keeps the shape
absent-or-string, because its argparse default is the boolean False
and a supplied occurrence is a string. -/
structure ParsedArgs where
  config : String
  work_dir : Option String
  resume_from : Option String
  no_validate : Option String
  device : String
  gpus : Option Nat
  gpu_ids : Option (List Nat)
  seed : Int
  deterministic : Bool
  options : Option (List (String × Int))
  launcher : String

/-- parse_args: fill in every argparse default from the source. -/
def parseArgs (c : CliArgs) : ParsedArgs :=
  { config := c.config.getD ("../configs/resnet/resnet50_in.py")
    work_dir := some (c.work_dir.getD ("../results"))
    resume_from := c.resume_from
    no_validate := c.no_validate
    device := c.device.getD ("cpu")
    gpus := c.gpus
    gpu_ids := c.gpu_ids
    seed := c.seed.getD 2021
    deterministic := c.deterministic
    options := c.options
    launcher := c.launcher.getD ("none") }

/-- The fields of the loaded configuration file that the orchestration
itself consumes: an optional work_dir and the iteration count of the
seed loop.  Fields that flow only into opaque collaborators are not
modelled. -/
structure FileCfg where
  work_dir : Option String
  iter : Nat

/-- The work_dir priority chain from source lines 76 to 81:
CLI value, then the config file value, then a name derived from the
config filename. -/
def workDirOf (args : ParsedArgs) (cfg : FileCfg) : String :=
  match args.work_dir with
  | some w => w
  | none =>
      match cfg.work_dir with
      | some w => w
      | none => ("./work_dirs/") ++ fileStem (baseName args.config)

/-- The non-distributed gpu_ids choice from source lines 84 to 87. -/
def gpuIdsNonDist (args : ParsedArgs) : List Nat :=
  match args.gpu_ids with
  | some ids => ids
  | none => List.range (args.gpus.getD 1)

/-- One observable effect of main: a call into an external collaborator,
carrying exactly the arguments the source passes.  The model built in an
iteration is identified by the iteration index, since build_classifier
returns a fresh object each time. -/
inductive TraceEv where
  | initDist (launcher : String)
  | mkdirOrExist (path : String)
  | dumpConfig (path : String)
  | createLogFile (path : String)
  | logTo (file : String) (tag : String)
  | setRandomSeed (s : Int) (deterministic : Bool)
  | buildClassifier (modelId : Nat)
  | initWeights (modelId : Nat)
  | buildDataset (modelId : Nat)
  | trainModel (modelId : Nat) (distributed : Bool) (validate : Bool)
      (device : String) (cfgSeed : Int) (metaSeed : Int)
  | testModel (modelId : Nat) (device : String)
deriving DecidableEq

/-- The events of one pass of the seed loop (source lines 123 to 173), in
source order: the seed log line, set_random_seed, build_classifier,
init_weights, build_dataset, train_model, test_model.  The guard on line
125 always holds because the seed list holds integers.  cfg.seed and
meta seed are both assigned seed[index_iter] just before train_model is
called; the trainModel event records both. -/
def iterEvents (args : ParsedArgs) (logFile : String) (distributed : Bool)
    (i : Nat) (_r : IterResult) : List TraceEv :=
  let s : Int := args.seed + (i : Int)
  [TraceEv.logTo logFile ("seed_info"),
   TraceEv.setRandomSeed s args.deterministic,
   TraceEv.buildClassifier i,
   TraceEv.initWeights i,
   TraceEv.buildDataset i,
   TraceEv.trainModel i distributed (!(pyTruthy args.no_validate))
     (devOf args.device) s s,
   TraceEv.testModel i (devOf args.device)]

/-- The mutable state of the seed loop: the accumulated trace and the four
accumulator lists KAPPA, OA, AA, ELEMENT_ACC from source line 121. -/
structure LoopState where
  trace : List TraceEv
  KAPPA : List ℚ
  OA : List ℚ
  AA : List ℚ
  ELEMENT_ACC : List (List ℚ)

/-- The state before the first iteration: four empty lists. -/
def initState : LoopState :=
  { trace := [], KAPPA := [], OA := [], AA := [], ELEMENT_ACC := [] }

/-- One iteration of the seed loop: emit the iteration events and append
the four metrics returned by test_model (source lines 170 to 173). -/
def stepIter (args : ParsedArgs) (logFile : String) (distributed : Bool)
    (env : RunEnv) (st : LoopState) (i : Nat) : LoopState :=
  let r := env.results i
  { trace := st.trace ++ iterEvents args logFile distributed i r
    KAPPA := st.KAPPA ++ [r.kappa]
    OA := st.OA ++ [r.overall_acc]
    AA := st.AA ++ [r.average_acc]
    ELEMENT_ACC := st.ELEMENT_ACC ++ [r.each_acc] }

/-- The whole seed loop: a left fold of stepIter over range n, exactly the
for loop over range(cfg.iter). -/
def runLoop (args : ParsedArgs) (logFile : String) (distributed : Bool)
    (env : RunEnv) (n : Nat) : LoopState :=
  (List.range n).foldl (stepIter args logFile distributed env) initState

/-- The effects main performs before the seed loop, in source order
(lines 90 to 119): the optional init_dist call, the work-directory
creation, the config dump under the basename of the config path, the log
file creation, and the three pre-loop log lines. -/
def setupEvents (args : ParsedArgs) (distributed : Bool)
    (workDir logFile : String) : List TraceEv :=
  (if distributed then [TraceEv.initDist args.launcher] else []) ++
  [TraceEv.mkdirOrExist workDir,
   TraceEv.dumpConfig (workDir ++ ("/") ++ baseName args.config),
   TraceEv.createLogFile logFile,
   TraceEv.logTo logFile ("env_info"),
   TraceEv.logTo logFile ("distributed_flag"),
   TraceEv.logTo logFile ("config_text")]

/-- The eight aggregate log lines after the loop (source lines
175 to 182). -/
def summaryLogs (logFile : String) : List TraceEv :=
  [TraceEv.logTo logFile ("OA_list"),
   TraceEv.logTo logFile ("AA_list"),
   TraceEv.logTo logFile ("KAPPA_list"),
   TraceEv.logTo logFile ("OA_mean_std"),
   TraceEv.logTo logFile ("AA_mean_std"),
   TraceEv.logTo logFile ("KAPPA_mean_std"),
   TraceEv.logTo logFile ("elem_mean"),
   TraceEv.logTo logFile ("elem_std")]

/-- Everything observable about one invocation of main. -/
structure MainOut where
  distributed : Bool
  gpu_ids : List Nat
  workDir : String
  logFile : String
  trace : List TraceEv
  KAPPA : List ℚ
  OA : List ℚ
  AA : List ℚ
  ELEMENT_ACC : List (List ℚ)
  summary : RunSummary

/-- main (source lines 65 to 182): parse arguments, settle the
distributed flag and gpu_ids, settle work_dir, build the timestamped log
file name, run the seed loop, and aggregate.  The distributed branch
overwrites gpu_ids with range(world_size). -/
def mainRun (cli : CliArgs) (cfg : FileCfg) (env : RunEnv) : MainOut :=
  let args := parseArgs cli
  let distributed : Bool := if args.launcher = ("none") then false else true
  let gpuIds : List Nat :=
    if args.launcher = ("none") then gpuIdsNonDist args
    else List.range env.worldSize
  let workDir := workDirOf args cfg
  let logFile := workDir ++ ("/") ++ timestampStr env.now ++ (".log")
  let st := runLoop args logFile distributed env cfg.iter
  { distributed := distributed
    gpu_ids := gpuIds
    workDir := workDir
    logFile := logFile
    trace := setupEvents args distributed workDir logFile ++ st.trace ++
      summaryLogs logFile
    KAPPA := st.KAPPA
    OA := st.OA
    AA := st.AA
    ELEMENT_ACC := st.ELEMENT_ACC
    summary := summaryOf st.OA st.AA st.KAPPA st.ELEMENT_ACC }

/-- The distributed flag main computes on source lines 90 to 93. -/
def mainDistFlag (cli : CliArgs) : Bool :=
  if (parseArgs cli).launcher = ("none") then false else true

/-- The log file path main builds on source lines 103 to 104. -/
def mainLogFile (cli : CliArgs) (cfg : FileCfg) (env : RunEnv) : String :=
  workDirOf (parseArgs cli) cfg ++ ("/") ++ timestampStr env.now ++ (".log")

/-- The loop state after the seed loop of main has finished. -/
def mainLoopState (cli : CliArgs) (cfg : FileCfg) (env : RunEnv) : LoopState :=
  runLoop (parseArgs cli) (mainLogFile cli cfg env) (mainDistFlag cli) env
    cfg.iter

/-- Extract the value passed to set_random_seed from an event. -/
def seedOf : TraceEv → Option Int
  | TraceEv.setRandomSeed s _ => some s
  | _ => none

/-- Extract the pair (cfg.seed, meta seed) passed to train_model. -/
def trainSeedsOf : TraceEv → Option (Int × Int)
  | TraceEv.trainModel _ _ _ _ cs ms => some (cs, ms)
  | _ => none

/-- Extract the distributed flag passed to train_model. -/
def distFieldOf : TraceEv → Option Bool
  | TraceEv.trainModel _ d _ _ _ _ => some d
  | _ => none

/-- Extract the validate flag passed to train_model. -/
def validOf : TraceEv → Option Bool
  | TraceEv.trainModel _ _ v _ _ _ => some v
  | _ => none

/-- Extract the device string passed to train_model or test_model. -/
def devFieldOf : TraceEv → Option String
  | TraceEv.trainModel _ _ _ dev _ _ => some dev
  | TraceEv.testModel _ dev => some dev
  | _ => none

/-- Recogniser for train_model calls. -/
def isTrainEv : TraceEv → Bool
  | TraceEv.trainModel _ _ _ _ _ _ => true
  | _ => false

/-- Recogniser for test_model calls. -/
def isTestEv : TraceEv → Bool
  | TraceEv.testModel _ _ => true
  | _ => false

/-- Recogniser for init_dist calls. -/
def isInitD : TraceEv → Bool
  | TraceEv.initDist _ => true
  | _ => false

/-- Recogniser for the train_model call on the model of iteration i. -/
def isTrainIdx (i : Nat) : TraceEv → Bool
  | TraceEv.trainModel m _ _ _ _ _ => m == i
  | _ => false

/-- Recogniser for the test_model call on the model of iteration i. -/
def isTestIdx (i : Nat) : TraceEv → Bool
  | TraceEv.testModel m _ => m == i
  | _ => false

/-- Recogniser for a log line directed anywhere other than lf. -/
def logToOther (lf : String) : TraceEv → Bool
  | TraceEv.logTo f _ => !(f == lf)
  | _ => false

/-- First-match lookup of a key in an association-list configuration. -/
def cfgGet : List (String × Int) → String → Option Int
  | [], _ => none
  | p :: t, k => if p.1 = k then some p.2 else cfgGet t k

/-- Set one key in an association-list configuration: replace every
binding of the key if one exists, else append a fresh binding. -/
def setKey (m : List (String × Int)) (k : String) (v : Int) :
    List (String × Int) :=
  if m.any (fun p => p.1 == k) then
    m.map (fun p => if p.1 = k then (k, v) else p)
  else m ++ [(k, v)]

/-- Modelled from the spec: Config.merge_from_dict belongs to the external
mmcv configuration system, an opaque dependency whose code is not in this
repository; the spec says main merges the loaded configuration file with
the --options key/value pairs, modelled here as a dictionary update that
sets each given key in turn. -/
def mergeFromDict (c : List (String × Int)) (o : List (String × Int)) :
    List (String × Int) :=
  o.foldl (fun acc kv => setKey acc kv.1 kv.2) c

/-- Source lines 68 to 70: merge the loaded configuration with the
--options pairs exactly when --options was supplied. -/
def finalAssoc (options : Option (List (String × Int)))
    (fileCfg : List (String × Int)) : List (String × Int) :=
  match options with
  | none => fileCfg
  | some o => mergeFromDict fileCfg o

/-- A command line that supplies nothing, so every argparse default
applies. -/
def exCli : CliArgs :=
  { config := none, work_dir := none, resume_from := none,
    no_validate := none, device := none, gpus := none, gpu_ids := none,
    seed := none, deterministic := false, options := none, launcher := none }

/-- A command line that supplies the empty string to --no-validate. -/
def exCli9 : CliArgs :=
  { exCli with no_validate := some ("") }

/-- A configuration file requesting one iteration. -/
def exCfg1 : FileCfg := { work_dir := none, iter := 1 }

/-- A configuration file requesting two iterations. -/
def exCfg2 : FileCfg := { work_dir := none, iter := 2 }

/-- A test_model oracle returning constant metrics. -/
def exRes1 : Nat → IterResult :=
  fun _ => { overall_acc := 1, average_acc := 1, kappa := 1, each_acc := [1] }

/-- A test_model oracle whose overall accuracies are constant while the
average accuracies vary, separating np.std(OA) from np.std(AA). -/
def exResBug : Nat → IterResult :=
  fun i =>
    if i = 0 then
      { overall_acc := 0, average_acc := 0, kappa := 0, each_acc := [0] }
    else
      { overall_acc := 0, average_acc := 2, kappa := 0, each_acc := [0] }

/-- A concrete run environment around a given oracle. -/
def exEnv (rs : Nat → IterResult) : RunEnv :=
  { worldSize := 1, now := ⟨2021, 1, 2, 3, 4, 5⟩, results := rs }

/-! ### Loop characterisation -/

theorem runLoop_succ (a : ParsedArgs) (lf : String) (d : Bool) (env : RunEnv)
    (n : Nat) :
    runLoop a lf d env (n + 1) =
      stepIter a lf d env (runLoop a lf d env n) n := by
  simp [runLoop, List.range_succ]

theorem runLoop_trace (a : ParsedArgs) (lf : String) (d : Bool) (env : RunEnv)
    (n : Nat) :
    (runLoop a lf d env n).trace =
      ((List.range n).map (fun i => iterEvents a lf d i (env.results i))).flatten := by
  induction n with
  | zero => rfl
  | succ k ih =>
      rw [runLoop_succ]
      simp [stepIter, ih, List.range_succ]

theorem runLoop_OA (a : ParsedArgs) (lf : String) (d : Bool) (env : RunEnv)
    (n : Nat) :
    (runLoop a lf d env n).OA =
      (List.range n).map (fun i => (env.results i).overall_acc) := by
  induction n with
  | zero => rfl
  | succ k ih =>
      rw [runLoop_succ]
      simp [stepIter, ih, List.range_succ]

theorem runLoop_AA (a : ParsedArgs) (lf : String) (d : Bool) (env : RunEnv)
    (n : Nat) :
    (runLoop a lf d env n).AA =
      (List.range n).map (fun i => (env.results i).average_acc) := by
  induction n with
  | zero => rfl
  | succ k ih =>
      rw [runLoop_succ]
      simp [stepIter, ih, List.range_succ]

theorem runLoop_KAPPA (a : ParsedArgs) (lf : String) (d : Bool) (env : RunEnv)
    (n : Nat) :
    (runLoop a lf d env n).KAPPA =
      (List.range n).map (fun i => (env.results i).kappa) := by
  induction n with
  | zero => rfl
  | succ k ih =>
      rw [runLoop_succ]
      simp [stepIter, ih, List.range_succ]

theorem runLoop_EL (a : ParsedArgs) (lf : String) (d : Bool) (env : RunEnv)
    (n : Nat) :
    (runLoop a lf d env n).ELEMENT_ACC =
      (List.range n).map (fun i => (env.results i).each_acc) := by
  induction n with
  | zero => rfl
  | succ k ih =>
      rw [runLoop_succ]
      simp [stepIter, ih, List.range_succ]

/-! ### Small list helpers -/

theorem filterMapJoin {α β : Type} (g : α → Option β) :
    ∀ L : List (List α), (L.flatten).filterMap g = (L.map (List.filterMap g)).flatten := by
  intro L
  induction L with
  | nil => rfl
  | cons x t ih => simp [List.filterMap_append, ih]

theorem countPJoin {α : Type} (p : α → Bool) :
    ∀ L : List (List α), (L.flatten).countP p = (L.map (fun l => l.countP p)).sum := by
  intro L
  induction L with
  | nil => rfl
  | cons x t ih => simp [List.countP_append, ih]

theorem joinSingletons {α β : Type} (f : α → β) :
    ∀ l : List α, (l.map (fun i => [f i])).flatten = l.map f := by
  intro l
  induction l with
  | nil => rfl
  | cons x t ih => simp [ih]

theorem joinPairsConst {α β : Type} (c : β) :
    ∀ l : List α, ((l.map (fun _ => [c, c])).flatten) = List.replicate (2 * l.length) c := by
  intro l
  induction l with
  | nil => rfl
  | cons x t ih =>
      rw [List.map_cons, List.flatten_cons, ih,
        show 2 * (x :: t).length = 2 + 2 * t.length from by
          simp [List.length_cons]; omega,
        List.replicate_add]
      rfl

theorem sublistOfMemJoin {α : Type} {x : List α} :
    ∀ {L : List (List α)}, x ∈ L → x.Sublist L.flatten := by
  intro L h
  induction L with
  | nil => cases h
  | cons y t ih =>
      rcases List.mem_cons.mp h with h1 | h2
      · rw [List.flatten_cons, h1]
        exact List.sublist_append_left y t.flatten
      · exact (ih h2).trans (by rw [List.flatten_cons]; exact List.sublist_append_right y t.flatten)

theorem sumMapOne {α : Type} : ∀ l : List α, (l.map (fun _ => 1)).sum = l.length := by
  intro l
  induction l with
  | nil => rfl
  | cons x t ih => simp [ih, Nat.add_comm]

theorem sumIndicatorBelow (i : Nat) :
    ∀ n : Nat, n ≤ i → (((List.range n).map (fun j => if j = i then 1 else 0)).sum) = 0 := by
  intro n hn
  apply List.sum_eq_zero
  intro x hx
  rcases List.mem_map.mp hx with ⟨j, hj, rfl⟩
  have : j < n := List.mem_range.mp hj
  simp [show j ≠ i from by omega]

theorem sumIndicator (i : Nat) :
    ∀ n : Nat, i < n → (((List.range n).map (fun j => if j = i then 1 else 0)).sum) = 1 := by
  intro n
  induction n with
  | zero => intro h; exact absurd h (Nat.not_lt_zero i)
  | succ k ih =>
      intro h
      rw [List.range_succ]
      rcases Nat.lt_succ_iff_lt_or_eq.mp h with h1 | h2
      · simp [ih h1, show ¬(k = i) from by omega]
      · subst h2
        simp [sumIndicatorBelow i i (Nat.le_refl i)]

/-! ### Per-block and setup computations -/

theorem filterMap_seed_block (a : ParsedArgs) (lf : String) (d : Bool)
    (i : Nat) (r : IterResult) :
    (iterEvents a lf d i r).filterMap seedOf = [a.seed + (i : Int)] := rfl

theorem filterMap_trainSeeds_block (a : ParsedArgs) (lf : String) (d : Bool)
    (i : Nat) (r : IterResult) :
    (iterEvents a lf d i r).filterMap trainSeedsOf =
      [(a.seed + (i : Int), a.seed + (i : Int))] := rfl

theorem filterMap_dist_block (a : ParsedArgs) (lf : String) (d : Bool)
    (i : Nat) (r : IterResult) :
    (iterEvents a lf d i r).filterMap distFieldOf = [d] := rfl

theorem filterMap_valid_block (a : ParsedArgs) (lf : String) (d : Bool)
    (i : Nat) (r : IterResult) :
    (iterEvents a lf d i r).filterMap validOf = [!(pyTruthy a.no_validate)] := rfl

theorem filterMap_dev_block (a : ParsedArgs) (lf : String) (d : Bool)
    (i : Nat) (r : IterResult) :
    (iterEvents a lf d i r).filterMap devFieldOf =
      [devOf a.device, devOf a.device] := rfl

theorem countP_train_block (a : ParsedArgs) (lf : String) (d : Bool)
    (i : Nat) (r : IterResult) :
    (iterEvents a lf d i r).countP isTrainEv = 1 := rfl

theorem countP_test_block (a : ParsedArgs) (lf : String) (d : Bool)
    (i : Nat) (r : IterResult) :
    (iterEvents a lf d i r).countP isTestEv = 1 := rfl

theorem countP_init_block (a : ParsedArgs) (lf : String) (d : Bool)
    (i : Nat) (r : IterResult) :
    (iterEvents a lf d i r).countP isInitD = 0 := rfl

theorem countP_logOther_block (a : ParsedArgs) (lf : String) (d : Bool)
    (i : Nat) (r : IterResult) :
    (iterEvents a lf d i r).countP (logToOther lf) = 0 := by
  simp [iterEvents, logToOther, List.countP_cons, List.countP_nil]

theorem countP_trainIdx_block (a : ParsedArgs) (lf : String) (d : Bool)
    (i j : Nat) (r : IterResult) :
    (iterEvents a lf d j r).countP (isTrainIdx i) = if j = i then 1 else 0 := by
  by_cases h : j = i <;>
    simp [iterEvents, isTrainIdx, List.countP_cons, List.countP_nil, h]

theorem countP_testIdx_block (a : ParsedArgs) (lf : String) (d : Bool)
    (i j : Nat) (r : IterResult) :
    (iterEvents a lf d j r).countP (isTestIdx i) = if j = i then 1 else 0 := by
  by_cases h : j = i <;>
    simp [iterEvents, isTestIdx, List.countP_cons, List.countP_nil, h]

theorem mapConstReplicate {α β : Type} (c : β) :
    ∀ l : List α, l.map (fun _ => c) = List.replicate l.length c := by
  intro l
  induction l with
  | nil => rfl
  | cons x t ih => simp [ih, List.replicate_succ]

theorem sumMapZero {α : Type} :
    ∀ l : List α, (l.map (fun _ => 0)).sum = 0 := by
  intro l
  induction l with
  | nil => rfl
  | cons x t ih => simp [ih]

/-! ### Loop-level projections of the trace -/

theorem loop_filterMap_seed (a : ParsedArgs) (lf : String) (d : Bool)
    (env : RunEnv) (n : Nat) :
    ((runLoop a lf d env n).trace).filterMap seedOf =
      (List.range n).map (fun (i : Nat) => a.seed + (i : Int)) := by
  rw [runLoop_trace, filterMapJoin, List.map_map]
  have h : (List.filterMap seedOf ∘ fun i => iterEvents a lf d i (env.results i)) =
      (fun (i : Nat) => [a.seed + (i : Int)]) :=
    funext (fun i => filterMap_seed_block a lf d i (env.results i))
  rw [h, joinSingletons]

theorem loop_filterMap_trainSeeds (a : ParsedArgs) (lf : String) (d : Bool)
    (env : RunEnv) (n : Nat) :
    ((runLoop a lf d env n).trace).filterMap trainSeedsOf =
      (List.range n).map (fun (i : Nat) => (a.seed + (i : Int), a.seed + (i : Int))) := by
  rw [runLoop_trace, filterMapJoin, List.map_map]
  have h : (List.filterMap trainSeedsOf ∘ fun i => iterEvents a lf d i (env.results i)) =
      (fun (i : Nat) => [(a.seed + (i : Int), a.seed + (i : Int))]) :=
    funext (fun i => filterMap_trainSeeds_block a lf d i (env.results i))
  rw [h, joinSingletons]

theorem loop_filterMap_dist (a : ParsedArgs) (lf : String) (d : Bool)
    (env : RunEnv) (n : Nat) :
    ((runLoop a lf d env n).trace).filterMap distFieldOf = List.replicate n d := by
  rw [runLoop_trace, filterMapJoin, List.map_map]
  have h : (List.filterMap distFieldOf ∘ fun i => iterEvents a lf d i (env.results i)) =
      (fun i => [d]) :=
    funext (fun i => filterMap_dist_block a lf d i (env.results i))
  rw [h, joinSingletons, mapConstReplicate, List.length_range]

theorem loop_filterMap_valid (a : ParsedArgs) (lf : String) (d : Bool)
    (env : RunEnv) (n : Nat) :
    ((runLoop a lf d env n).trace).filterMap validOf =
      List.replicate n (!(pyTruthy a.no_validate)) := by
  rw [runLoop_trace, filterMapJoin, List.map_map]
  have h : (List.filterMap validOf ∘ fun i => iterEvents a lf d i (env.results i)) =
      (fun i => [!(pyTruthy a.no_validate)]) :=
    funext (fun i => filterMap_valid_block a lf d i (env.results i))
  rw [h, joinSingletons, mapConstReplicate, List.length_range]

theorem loop_filterMap_dev (a : ParsedArgs) (lf : String) (d : Bool)
    (env : RunEnv) (n : Nat) :
    ((runLoop a lf d env n).trace).filterMap devFieldOf =
      List.replicate (2 * n) (devOf a.device) := by
  rw [runLoop_trace, filterMapJoin, List.map_map]
  have h : (List.filterMap devFieldOf ∘ fun i => iterEvents a lf d i (env.results i)) =
      (fun _ => [devOf a.device, devOf a.device]) :=
    funext (fun i => filterMap_dev_block a lf d i (env.results i))
  rw [h, joinPairsConst, List.length_range]

theorem loop_countP_train (a : ParsedArgs) (lf : String) (d : Bool)
    (env : RunEnv) (n : Nat) :
    ((runLoop a lf d env n).trace).countP isTrainEv = n := by
  rw [runLoop_trace, countPJoin, List.map_map]
  have h : ((fun l => List.countP isTrainEv l) ∘ fun i => iterEvents a lf d i (env.results i)) =
      (fun _ => 1) :=
    funext (fun i => countP_train_block a lf d i (env.results i))
  rw [h, sumMapOne, List.length_range]

theorem loop_countP_test (a : ParsedArgs) (lf : String) (d : Bool)
    (env : RunEnv) (n : Nat) :
    ((runLoop a lf d env n).trace).countP isTestEv = n := by
  rw [runLoop_trace, countPJoin, List.map_map]
  have h : ((fun l => List.countP isTestEv l) ∘ fun i => iterEvents a lf d i (env.results i)) =
      (fun _ => 1) :=
    funext (fun i => countP_test_block a lf d i (env.results i))
  rw [h, sumMapOne, List.length_range]

theorem loop_countP_init (a : ParsedArgs) (lf : String) (d : Bool)
    (env : RunEnv) (n : Nat) :
    ((runLoop a lf d env n).trace).countP isInitD = 0 := by
  rw [runLoop_trace, countPJoin, List.map_map]
  have h : ((fun l => List.countP isInitD l) ∘ fun i => iterEvents a lf d i (env.results i)) =
      (fun _ => 0) :=
    funext (fun i => countP_init_block a lf d i (env.results i))
  rw [h, sumMapZero]

theorem loop_countP_logOther (a : ParsedArgs) (lf : String) (d : Bool)
    (env : RunEnv) (n : Nat) :
    ((runLoop a lf d env n).trace).countP (logToOther lf) = 0 := by
  rw [runLoop_trace, countPJoin, List.map_map]
  have h : ((fun l => List.countP (logToOther lf) l) ∘ fun i => iterEvents a lf d i (env.results i)) =
      (fun _ => 0) :=
    funext (fun i => countP_logOther_block a lf d i (env.results i))
  rw [h, sumMapZero]

theorem loop_countP_trainIdx (a : ParsedArgs) (lf : String) (d : Bool)
    (env : RunEnv) (n i : Nat) (hi : i < n) :
    ((runLoop a lf d env n).trace).countP (isTrainIdx i) = 1 := by
  rw [runLoop_trace, countPJoin, List.map_map]
  have h : ((fun l => List.countP (isTrainIdx i) l) ∘ fun j => iterEvents a lf d j (env.results j)) =
      (fun j => if j = i then 1 else 0) :=
    funext (fun j => countP_trainIdx_block a lf d i j (env.results j))
  rw [h]
  exact sumIndicator i n hi

theorem loop_countP_testIdx (a : ParsedArgs) (lf : String) (d : Bool)
    (env : RunEnv) (n i : Nat) (hi : i < n) :
    ((runLoop a lf d env n).trace).countP (isTestIdx i) = 1 := by
  rw [runLoop_trace, countPJoin, List.map_map]
  have h : ((fun l => List.countP (isTestIdx i) l) ∘ fun j => iterEvents a lf d j (env.results j)) =
      (fun j => if j = i then 1 else 0) :=
    funext (fun j => countP_testIdx_block a lf d i j (env.results j))
  rw [h]
  exact sumIndicator i n hi

theorem block_sublist_loop (a : ParsedArgs) (lf : String) (d : Bool)
    (env : RunEnv) (n i : Nat) (hi : i < n) :
    (iterEvents a lf d i (env.results i)).Sublist (runLoop a lf d env n).trace := by
  rw [runLoop_trace]
  exact sublistOfMemJoin
    (List.mem_map_of_mem _ (List.mem_range.mpr hi))

/-! ### Setup and summary projections -/

theorem setup_filterMap_seed (a : ParsedArgs) (d : Bool) (wd lf : String) :
    (setupEvents a d wd lf).filterMap seedOf = [] := by
  cases d <;> rfl

theorem setup_filterMap_trainSeeds (a : ParsedArgs) (d : Bool) (wd lf : String) :
    (setupEvents a d wd lf).filterMap trainSeedsOf = [] := by
  cases d <;> rfl

theorem setup_filterMap_dist (a : ParsedArgs) (d : Bool) (wd lf : String) :
    (setupEvents a d wd lf).filterMap distFieldOf = [] := by
  cases d <;> rfl

theorem setup_filterMap_valid (a : ParsedArgs) (d : Bool) (wd lf : String) :
    (setupEvents a d wd lf).filterMap validOf = [] := by
  cases d <;> rfl

theorem setup_filterMap_dev (a : ParsedArgs) (d : Bool) (wd lf : String) :
    (setupEvents a d wd lf).filterMap devFieldOf = [] := by
  cases d <;> rfl

theorem setup_countP_train (a : ParsedArgs) (d : Bool) (wd lf : String) :
    (setupEvents a d wd lf).countP isTrainEv = 0 := by
  cases d <;> rfl

theorem setup_countP_test (a : ParsedArgs) (d : Bool) (wd lf : String) :
    (setupEvents a d wd lf).countP isTestEv = 0 := by
  cases d <;> rfl

theorem setup_countP_init (a : ParsedArgs) (d : Bool) (wd lf : String) :
    (setupEvents a d wd lf).countP isInitD = if d then 1 else 0 := by
  cases d <;> rfl

theorem setup_countP_trainIdx (a : ParsedArgs) (d : Bool) (wd lf : String)
    (i : Nat) :
    (setupEvents a d wd lf).countP (isTrainIdx i) = 0 := by
  cases d <;> rfl

theorem setup_countP_testIdx (a : ParsedArgs) (d : Bool) (wd lf : String)
    (i : Nat) :
    (setupEvents a d wd lf).countP (isTestIdx i) = 0 := by
  cases d <;> rfl

theorem setup_countP_logOther (a : ParsedArgs) (d : Bool) (wd lf : String) :
    (setupEvents a d wd lf).countP (logToOther lf) = 0 := by
  cases d <;>
    simp [setupEvents, logToOther, List.countP_cons, List.countP_nil]

theorem sm_filterMap_seed (lf : String) :
    (summaryLogs lf).filterMap seedOf = [] := rfl

theorem sm_filterMap_trainSeeds (lf : String) :
    (summaryLogs lf).filterMap trainSeedsOf = [] := rfl

theorem sm_filterMap_dist (lf : String) :
    (summaryLogs lf).filterMap distFieldOf = [] := rfl

theorem sm_filterMap_valid (lf : String) :
    (summaryLogs lf).filterMap validOf = [] := rfl

theorem sm_filterMap_dev (lf : String) :
    (summaryLogs lf).filterMap devFieldOf = [] := rfl

theorem sm_countP_train (lf : String) :
    (summaryLogs lf).countP isTrainEv = 0 := rfl

theorem sm_countP_test (lf : String) :
    (summaryLogs lf).countP isTestEv = 0 := rfl

theorem sm_countP_init (lf : String) :
    (summaryLogs lf).countP isInitD = 0 := rfl

theorem sm_countP_trainIdx (lf : String) (i : Nat) :
    (summaryLogs lf).countP (isTrainIdx i) = 0 := rfl

theorem sm_countP_testIdx (lf : String) (i : Nat) :
    (summaryLogs lf).countP (isTestIdx i) = 0 := rfl

theorem sm_countP_logOther (lf : String) :
    (summaryLogs lf).countP (logToOther lf) = 0 := by
  simp [summaryLogs, logToOther, List.countP_cons, List.countP_nil]

/-! ### Projections of mainRun -/

theorem mainRun_trace (cli : CliArgs) (cfg : FileCfg) (env : RunEnv) :
    (mainRun cli cfg env).trace =
      setupEvents (parseArgs cli) (mainDistFlag cli)
          (workDirOf (parseArgs cli) cfg) (mainLogFile cli cfg env) ++
        (mainLoopState cli cfg env).trace ++
        summaryLogs (mainLogFile cli cfg env) := rfl

theorem mainRun_distributed (cli : CliArgs) (cfg : FileCfg) (env : RunEnv) :
    (mainRun cli cfg env).distributed = mainDistFlag cli := rfl

theorem mainRun_workDir (cli : CliArgs) (cfg : FileCfg) (env : RunEnv) :
    (mainRun cli cfg env).workDir = workDirOf (parseArgs cli) cfg := rfl

theorem mainRun_logFile (cli : CliArgs) (cfg : FileCfg) (env : RunEnv) :
    (mainRun cli cfg env).logFile = mainLogFile cli cfg env := rfl

theorem mainRun_gpu_ids (cli : CliArgs) (cfg : FileCfg) (env : RunEnv) :
    (mainRun cli cfg env).gpu_ids =
      (if (parseArgs cli).launcher = ("none") then gpuIdsNonDist (parseArgs cli)
       else List.range env.worldSize) := rfl

theorem mainRun_OA (cli : CliArgs) (cfg : FileCfg) (env : RunEnv) :
    (mainRun cli cfg env).OA = (mainLoopState cli cfg env).OA := rfl

theorem mainRun_AA (cli : CliArgs) (cfg : FileCfg) (env : RunEnv) :
    (mainRun cli cfg env).AA = (mainLoopState cli cfg env).AA := rfl

theorem mainRun_KAPPA (cli : CliArgs) (cfg : FileCfg) (env : RunEnv) :
    (mainRun cli cfg env).KAPPA = (mainLoopState cli cfg env).KAPPA := rfl

theorem mainRun_EL (cli : CliArgs) (cfg : FileCfg) (env : RunEnv) :
    (mainRun cli cfg env).ELEMENT_ACC =
      (mainLoopState cli cfg env).ELEMENT_ACC := rfl

theorem mainRun_summary (cli : CliArgs) (cfg : FileCfg) (env : RunEnv) :
    (mainRun cli cfg env).summary =
      summaryOf (mainLoopState cli cfg env).OA (mainLoopState cli cfg env).AA
        (mainLoopState cli cfg env).KAPPA
        (mainLoopState cli cfg env).ELEMENT_ACC := rfl

/-! ### Timestamp shape -/

theorem isDigit_digitChar_lt {k : Nat} (h : k < 10) :
    (Nat.digitChar k).isDigit = true := by
  interval_cases k <;> decide

theorem isDigit_digitChar_mod (x : Nat) :
    (Nat.digitChar (x % 10)).isDigit = true :=
  isDigit_digitChar_lt (Nat.mod_lt x (by norm_num))

theorem tsWellFormed_tsChars (t : ClockTime) :
    tsWellFormed (tsChars t) = true := by
  simp [tsWellFormed, tsChars, pad4, pad2, isDigit_digitChar_mod]

/-! ### Configuration merging -/

theorem cfgGet_map_subst (k : String) (v : Int) (k2 : String) (h : k2 ≠ k) :
    ∀ m : List (String × Int),
      cfgGet (m.map (fun p => if p.1 = k then (k, v) else p)) k2 = cfgGet m k2 := by
  intro m
  induction m with
  | nil => rfl
  | cons p t ih =>
      simp only [List.map_cons]
      by_cases h1 : p.1 = k
      · have hk2 : ¬(k = k2) := fun hh => h hh.symm
        have hp2 : ¬(p.1 = k2) := by rw [h1]; exact hk2
        rw [if_pos h1]
        simp [cfgGet, hk2, hp2, ih]
      · rw [if_neg h1]
        by_cases h2 : p.1 = k2 <;> simp [cfgGet, h2, ih]

theorem cfgGet_append_ne (k : String) (v : Int) (k2 : String) (h : k2 ≠ k) :
    ∀ m : List (String × Int), cfgGet (m ++ [(k, v)]) k2 = cfgGet m k2 := by
  intro m
  induction m with
  | nil => simp [cfgGet, show ¬(k = k2) from fun hh => h hh.symm]
  | cons p t ih => by_cases h2 : p.1 = k2 <;> simp [cfgGet, h2, ih]

theorem cfgGet_setKey_ne (m : List (String × Int)) (k : String) (v : Int)
    (k2 : String) (h : k2 ≠ k) :
    cfgGet (setKey m k v) k2 = cfgGet m k2 := by
  cases hb : m.any (fun p => p.1 == k) <;>
    simp [setKey, hb, cfgGet_map_subst k v k2 h m, cfgGet_append_ne k v k2 h m]

theorem cfgGet_none_of_not_mem (k : String) :
    ∀ m : List (String × Int), (∀ p ∈ m, p.1 ≠ k) → cfgGet m k = none := by
  intro m
  induction m with
  | nil => intro _; rfl
  | cons p t ih =>
      intro h
      have h1 : ¬p.1 = k := h p (List.mem_cons_self p t)
      simp [cfgGet, h1, ih (fun q hq => h q (List.mem_cons_of_mem p hq))]

theorem cfgGet_append_hit (k : String) (v : Int) :
    ∀ m : List (String × Int),
      cfgGet m k = none → cfgGet (m ++ [(k, v)]) k = some v := by
  intro m
  induction m with
  | nil => intro _; simp [cfgGet]
  | cons p t ih =>
      intro h0
      by_cases h1 : p.1 = k
      · simp [cfgGet, h1] at h0
      · simp [cfgGet, h1] at h0 ⊢
        exact ih h0

theorem cfgGet_map_subst_hit (k : String) (v : Int) :
    ∀ m : List (String × Int), (∃ p ∈ m, p.1 = k) →
      cfgGet (m.map (fun p => if p.1 = k then (k, v) else p)) k = some v := by
  intro m
  induction m with
  | nil => intro h; simp at h
  | cons p t ih =>
      intro hb
      simp only [List.map_cons]
      by_cases h1 : p.1 = k
      · rw [if_pos h1]
        simp [cfgGet]
      · rw [if_neg h1]
        obtain ⟨q, hq, hqk⟩ := hb
        have hqt : q ∈ t := by
          rcases List.mem_cons.mp hq with he | ht
          · exact absurd (he ▸ hqk) h1
          · exact ht
        simp [cfgGet, h1, ih ⟨q, hqt, hqk⟩]

theorem anyKey_of_mem {k : String} {m : List (String × Int)}
    (h : ∃ p ∈ m, p.1 = k) : m.any (fun p => p.1 == k) = true := by
  obtain ⟨p, hp, hpk⟩ := h
  exact List.any_eq_true.mpr ⟨p, hp, by simp [hpk]⟩

theorem mem_of_anyKey {k : String} {m : List (String × Int)}
    (h : m.any (fun p => p.1 == k) = true) : ∃ p ∈ m, p.1 = k := by
  obtain ⟨p, hp, hpk⟩ := List.any_eq_true.mp h
  exact ⟨p, hp, by simpa using hpk⟩

theorem cfgGet_setKey_self (m : List (String × Int)) (k : String) (v : Int) :
    cfgGet (setKey m k v) k = some v := by
  cases hb : m.any (fun p => p.1 == k)
  · simp only [setKey, hb, Bool.false_eq_true, if_false]
    refine cfgGet_append_hit k v m (cfgGet_none_of_not_mem k m ?_)
    intro q hq hqk
    have : m.any (fun p => p.1 == k) = true := anyKey_of_mem ⟨q, hq, hqk⟩
    rw [this] at hb
    cases hb
  · simp only [setKey, hb, if_true]
    exact cfgGet_map_subst_hit k v m (mem_of_anyKey hb)

theorem mergeFromDict_cons (c : List (String × Int)) (p : String × Int)
    (t : List (String × Int)) :
    mergeFromDict c (p :: t) = mergeFromDict (setKey c p.1 p.2) t := rfl

theorem mergeFromDict_not_mentioned (k : String) :
    ∀ (o : List (String × Int)) (c : List (String × Int)),
      (∀ p ∈ o, p.1 ≠ k) → cfgGet (mergeFromDict c o) k = cfgGet c k := by
  intro o
  induction o with
  | nil => intro c _; rfl
  | cons p t ih =>
      intro c h
      rw [mergeFromDict_cons,
        ih (setKey c p.1 p.2) (fun q hq => h q (List.mem_cons_of_mem p hq)),
        cfgGet_setKey_ne c p.1 p.2 k (h p (List.mem_cons_self p t)).symm]

theorem mergeFromDict_mentioned (k : String) (v : Int) :
    ∀ (o : List (String × Int)) (c : List (String × Int)),
      (o.map Prod.fst).Nodup → (k, v) ∈ o →
      cfgGet (mergeFromDict c o) k = some v := by
  intro o
  induction o with
  | nil => intro c _ hm; cases hm
  | cons p t ih =>
      intro c hnd hm
      rw [List.map_cons] at hnd
      obtain ⟨hnotin, hnd2⟩ := List.nodup_cons.mp hnd
      rw [mergeFromDict_cons]
      rcases List.mem_cons.mp hm with h1 | h2
      · have hfst : p.1 = k := by rw [← h1]
        have hsnd : p.2 = v := by rw [← h1]
        have hfresh : ∀ q ∈ t, q.1 ≠ k := by
          intro q hq hqk
          have hmem : q.1 ∈ t.map Prod.fst := List.mem_map_of_mem Prod.fst hq
          rw [hqk, ← hfst] at hmem
          exact hnotin hmem
        rw [mergeFromDict_not_mentioned k t (setKey c p.1 p.2) hfresh,
          hfst, hsnd]
        exact cfgGet_setKey_self c k v
      · exact ih (setKey c p.1 p.2) hnd2 h2

/-! ### Claims -/

/-- C2: with base seed s and n = cfg.iter iterations, main performs exactly
n train/evaluate runs; the i-th run passes s + i to set_random_seed and
assigns the same value s + i to both cfg.seed and the meta seed before
calling train_model, so the seeds used across runs are the consecutive
integers s, s+1, ..., s+n-1 in increasing order. -/
theorem seed_sequence_consecutive (cli : CliArgs) (cfg : FileCfg)
    (env : RunEnv) :
    ((mainRun cli cfg env).trace).filterMap seedOf =
      (List.range cfg.iter).map (fun (i : Nat) => (parseArgs cli).seed + (i : Int))
  ∧ ((mainRun cli cfg env).trace).filterMap trainSeedsOf =
      (List.range cfg.iter).map (fun (i : Nat) =>
        ((parseArgs cli).seed + (i : Int), (parseArgs cli).seed + (i : Int)))
  ∧ ((mainRun cli cfg env).trace).countP isTrainEv = cfg.iter
  ∧ ((mainRun cli cfg env).trace).countP isTestEv = cfg.iter := by
  refine ⟨?_, ?_, ?_, ?_⟩
  · rw [mainRun_trace]
    simp [List.filterMap_append, setup_filterMap_seed, sm_filterMap_seed,
      mainLoopState, loop_filterMap_seed]
  · rw [mainRun_trace]
    simp [List.filterMap_append, setup_filterMap_trainSeeds,
      sm_filterMap_trainSeeds, mainLoopState, loop_filterMap_trainSeeds]
  · rw [mainRun_trace]
    simp [List.countP_append, setup_countP_train, sm_countP_train,
      mainLoopState, loop_countP_train]
  · rw [mainRun_trace]
    simp [List.countP_append, setup_countP_test, sm_countP_test,
      mainLoopState, loop_countP_test]

/-- C3: after the seed loop, the four accumulator lists KAPPA, OA, AA,
ELEMENT_ACC each have length cfg.iter, and the i-th entry of each is the
corresponding metric returned by test_model in the i-th iteration, in
iteration order. -/
theorem accumulators_collect_results (cli : CliArgs) (cfg : FileCfg)
    (env : RunEnv) :
    (mainRun cli cfg env).OA =
      (List.range cfg.iter).map (fun i => (env.results i).overall_acc)
  ∧ (mainRun cli cfg env).AA =
      (List.range cfg.iter).map (fun i => (env.results i).average_acc)
  ∧ (mainRun cli cfg env).KAPPA =
      (List.range cfg.iter).map (fun i => (env.results i).kappa)
  ∧ (mainRun cli cfg env).ELEMENT_ACC =
      (List.range cfg.iter).map (fun i => (env.results i).each_acc)
  ∧ (mainRun cli cfg env).OA.length = cfg.iter
  ∧ (mainRun cli cfg env).AA.length = cfg.iter
  ∧ (mainRun cli cfg env).KAPPA.length = cfg.iter
  ∧ (mainRun cli cfg env).ELEMENT_ACC.length = cfg.iter := by
  refine ⟨?_, ?_, ?_, ?_, ?_, ?_, ?_, ?_⟩ <;>
    simp [mainRun_OA, mainRun_AA, mainRun_KAPPA, mainRun_EL, mainLoopState,
      runLoop_OA, runLoop_AA, runLoop_KAPPA, runLoop_EL]

/-- C5: the distributed flag passed to train_model is true exactly when
the launcher argument differs from the string none; init_dist is invoked
exactly once in that case and never otherwise; and in that case gpu_ids is
range(world_size), ignoring the gpu-id and gpus arguments. -/
theorem distributed_iff_launcher (cli : CliArgs) (cfg : FileCfg)
    (env : RunEnv) :
    ((mainRun cli cfg env).distributed = true ↔
      (parseArgs cli).launcher ≠ ("none"))
  ∧ ((mainRun cli cfg env).trace).filterMap distFieldOf =
      List.replicate cfg.iter (mainRun cli cfg env).distributed
  ∧ ((mainRun cli cfg env).trace).countP isInitD =
      (if (parseArgs cli).launcher = ("none") then 0 else 1)
  ∧ (mainRun cli cfg env).gpu_ids =
      (if (parseArgs cli).launcher = ("none") then
        gpuIdsNonDist (parseArgs cli)
       else List.range env.worldSize) := by
  refine ⟨?_, ?_, ?_, mainRun_gpu_ids cli cfg env⟩
  · by_cases h : (parseArgs cli).launcher = ("none") <;>
      simp [mainRun_distributed, mainDistFlag, h]
  · rw [mainRun_trace, mainRun_distributed]
    simp [List.filterMap_append, setup_filterMap_dist, sm_filterMap_dist,
      mainLoopState, loop_filterMap_dist]
  · rw [mainRun_trace]
    by_cases h : (parseArgs cli).launcher = ("none") <;>
      simp [List.countP_append, setup_countP_init, sm_countP_init,
        mainLoopState, loop_countP_init, mainDistFlag, h]

/-- C8: the work-dir priority chain is decided by the CLI in every
invocation: the parsed work_dir is never none because of the non-none
argparse default, so cfg.work_dir is always overwritten with the CLI value
(or its default), and the two fallback branches are unreachable: the
resulting work directory does not depend on the config file at all. -/
theorem work_dir_cli_always_wins (cli : CliArgs) (cfg cfg2 : FileCfg)
    (env : RunEnv) :
    ((parseArgs cli).work_dir).isSome = true
  ∧ workDirOf (parseArgs cli) cfg = (cli.work_dir).getD ("../results")
  ∧ workDirOf (parseArgs cli) cfg = workDirOf (parseArgs cli) cfg2
  ∧ (mainRun cli cfg env).workDir = (cli.work_dir).getD ("../results") :=
  ⟨rfl, rfl, rfl, rfl⟩

/-- C10: the device string passed to every train_model and test_model call
is cpu when the device argument is exactly the string cpu and cuda for
every other value, including strings such as cuda:1 or CPU. -/
theorem device_normalization (cli : CliArgs) (cfg : FileCfg) (env : RunEnv)
    (d0 : String) :
    devOf d0 = (if d0 = ("cpu") then ("cpu") else ("cuda"))
  ∧ devOf ("cuda:1") = ("cuda")
  ∧ devOf ("CPU") = ("cuda")
  ∧ ((mainRun cli cfg env).trace).filterMap devFieldOf =
      List.replicate (2 * cfg.iter) (devOf (parseArgs cli).device) := by
  refine ⟨rfl, by decide, by decide, ?_⟩
  rw [mainRun_trace]
  simp [List.filterMap_append, setup_filterMap_dev, sm_filterMap_dev,
    mainLoopState, loop_filterMap_dev]

/-- C4: in iteration i the operations occur in source order: set the
random seed, build the classifier, initialise weights, build the dataset,
train, and only then test; the train_model and test_model calls of the
iteration address the same model object (the one built in that iteration),
each occurring exactly once in the whole trace, so the model is never
evaluated before it has been trained in that iteration. -/
theorem train_precedes_test (cli : CliArgs) (cfg : FileCfg) (env : RunEnv)
    (i : Nat) (hi : i < cfg.iter) :
    [TraceEv.setRandomSeed ((parseArgs cli).seed + (i : Int))
        (parseArgs cli).deterministic,
     TraceEv.buildClassifier i,
     TraceEv.initWeights i,
     TraceEv.buildDataset i,
     TraceEv.trainModel i (mainRun cli cfg env).distributed
       (!(pyTruthy (parseArgs cli).no_validate)) (devOf (parseArgs cli).device)
       ((parseArgs cli).seed + (i : Int)) ((parseArgs cli).seed + (i : Int)),
     TraceEv.testModel i (devOf (parseArgs cli).device)].Sublist
      (mainRun cli cfg env).trace
  ∧ ((mainRun cli cfg env).trace).countP (isTrainIdx i) = 1
  ∧ ((mainRun cli cfg env).trace).countP (isTestIdx i) = 1 := by
  refine ⟨?_, ?_, ?_⟩
  · rw [mainRun_trace, mainRun_distributed]
    have hb : [TraceEv.setRandomSeed ((parseArgs cli).seed + (i : Int))
          (parseArgs cli).deterministic,
        TraceEv.buildClassifier i,
        TraceEv.initWeights i,
        TraceEv.buildDataset i,
        TraceEv.trainModel i (mainDistFlag cli)
          (!(pyTruthy (parseArgs cli).no_validate))
          (devOf (parseArgs cli).device)
          ((parseArgs cli).seed + (i : Int)) ((parseArgs cli).seed + (i : Int)),
        TraceEv.testModel i (devOf (parseArgs cli).device)].Sublist
          (iterEvents (parseArgs cli) (mainLogFile cli cfg env)
            (mainDistFlag cli) i (env.results i)) :=
      List.Sublist.cons _ (List.Sublist.refl _)
    have hl := block_sublist_loop (parseArgs cli) (mainLogFile cli cfg env)
      (mainDistFlag cli) env cfg.iter i hi
    have hfull : ((mainLoopState cli cfg env).trace).Sublist
        (setupEvents (parseArgs cli) (mainDistFlag cli)
          (workDirOf (parseArgs cli) cfg) (mainLogFile cli cfg env) ++
          (mainLoopState cli cfg env).trace ++
          summaryLogs (mainLogFile cli cfg env)) :=
      (List.sublist_append_right _ _).trans (List.sublist_append_left _ _)
    exact hb.trans (hl.trans hfull)
  · rw [mainRun_trace, List.countP_append, List.countP_append,
      setup_countP_trainIdx, sm_countP_trainIdx]
    have := loop_countP_trainIdx (parseArgs cli) (mainLogFile cli cfg env)
      (mainDistFlag cli) env cfg.iter i hi
    rw [show (mainLoopState cli cfg env).trace =
        (runLoop (parseArgs cli) (mainLogFile cli cfg env) (mainDistFlag cli)
          env cfg.iter).trace from rfl, this]
  · rw [mainRun_trace, List.countP_append, List.countP_append,
      setup_countP_testIdx, sm_countP_testIdx]
    have := loop_countP_testIdx (parseArgs cli) (mainLogFile cli cfg env)
      (mainDistFlag cli) env cfg.iter i hi
    rw [show (mainLoopState cli cfg env).trace =
        (runLoop (parseArgs cli) (mainLogFile cli cfg env) (mainDistFlag cli)
          env cfg.iter).trace from rfl, this]

/-- C4 witness: the ordering statement instantiated at a concrete
one-iteration run with every argparse default. -/
theorem train_precedes_test_w :
    [TraceEv.setRandomSeed ((parseArgs exCli).seed + ((0 : Nat) : Int))
        (parseArgs exCli).deterministic,
     TraceEv.buildClassifier 0,
     TraceEv.initWeights 0,
     TraceEv.buildDataset 0,
     TraceEv.trainModel 0 (mainRun exCli exCfg1 (exEnv exRes1)).distributed
       (!(pyTruthy (parseArgs exCli).no_validate))
       (devOf (parseArgs exCli).device)
       ((parseArgs exCli).seed + ((0 : Nat) : Int))
       ((parseArgs exCli).seed + ((0 : Nat) : Int)),
     TraceEv.testModel 0 (devOf (parseArgs exCli).device)].Sublist
      (mainRun exCli exCfg1 (exEnv exRes1)).trace
  ∧ ((mainRun exCli exCfg1 (exEnv exRes1)).trace).countP (isTrainIdx 0) = 1
  ∧ ((mainRun exCli exCfg1 (exEnv exRes1)).trace).countP (isTestIdx 0) = 1 :=
  train_precedes_test exCli exCfg1 (exEnv exRes1) 0 (by decide)

/-- C7: the log file is the work directory joined with a timestamp plus
the .log suffix; the timestamp has the shape YYYYMMDD_HHMMSS; the
directory creation, the config dump under the config basename, and the
log file creation all happen in a prefix of the trace that contains no
training or testing call; and every log event of the run is directed at
that single log file. -/
theorem workdir_dump_log_setup (cli : CliArgs) (cfg : FileCfg)
    (env : RunEnv) :
    (mainRun cli cfg env).logFile =
      (mainRun cli cfg env).workDir ++ ("/") ++ timestampStr env.now ++ (".log")
  ∧ tsWellFormed (tsChars env.now) = true
  ∧ (∃ pre rest, (mainRun cli cfg env).trace = pre ++ rest
      ∧ [TraceEv.mkdirOrExist (mainRun cli cfg env).workDir,
         TraceEv.dumpConfig ((mainRun cli cfg env).workDir ++ ("/") ++
           baseName (parseArgs cli).config),
         TraceEv.createLogFile (mainRun cli cfg env).logFile].Sublist pre
      ∧ pre.countP isTrainEv = 0 ∧ pre.countP isTestEv = 0)
  ∧ ((mainRun cli cfg env).trace).countP
      (logToOther (mainRun cli cfg env).logFile) = 0 := by
  refine ⟨rfl, tsWellFormed_tsChars env.now, ?_, ?_⟩
  · refine ⟨setupEvents (parseArgs cli) (mainDistFlag cli)
        (workDirOf (parseArgs cli) cfg) (mainLogFile cli cfg env),
      (mainLoopState cli cfg env).trace ++
        summaryLogs (mainLogFile cli cfg env), ?_, ?_,
      setup_countP_train _ _ _ _, setup_countP_test _ _ _ _⟩
    · rw [mainRun_trace, List.append_assoc]
    · rw [mainRun_workDir, mainRun_logFile]
      have h1 : [TraceEv.mkdirOrExist (workDirOf (parseArgs cli) cfg),
          TraceEv.dumpConfig (workDirOf (parseArgs cli) cfg ++ ("/") ++
            baseName (parseArgs cli).config),
          TraceEv.createLogFile (mainLogFile cli cfg env)].Sublist
          [TraceEv.mkdirOrExist (workDirOf (parseArgs cli) cfg),
           TraceEv.dumpConfig (workDirOf (parseArgs cli) cfg ++ ("/") ++
             baseName (parseArgs cli).config),
           TraceEv.createLogFile (mainLogFile cli cfg env),
           TraceEv.logTo (mainLogFile cli cfg env) ("env_info"),
           TraceEv.logTo (mainLogFile cli cfg env) ("distributed_flag"),
           TraceEv.logTo (mainLogFile cli cfg env) ("config_text")] :=
        List.Sublist.cons₂ _ (List.Sublist.cons₂ _ (List.Sublist.cons₂ _
          (List.nil_sublist _)))
      exact h1.trans (List.sublist_append_right _ _)
  · rw [mainRun_trace, mainRun_logFile]
    simp [List.countP_append, setup_countP_logOther, sm_countP_logOther,
      mainLoopState, loop_countP_logOther]

/-- C9 counterexample: supplying the empty string as the value of
the no-validate option leaves validation enabled: the single train_model
call of this run receives validate = true even though a value was
supplied on the command line, refuting the claim that supplying any
value disables validation. -/
theorem no_validate_empty_string_enables :
    ((mainRun exCli9 exCfg1 (exEnv exRes1)).trace).filterMap validOf =
      [true] := by decide

/-- C9 (amended): validation is enabled exactly when the no-validate
option is absent or supplied as the empty string; any non-empty supplied
value, including the literal string False, is truthy and disables
validation; the validate flag passed to every train_model call is the
negated truthiness of the supplied value. -/
theorem no_validate_truthiness (cli : CliArgs) (cfg : FileCfg)
    (env : RunEnv) (v : Option String) :
    ((!(pyTruthy v)) = true ↔ (v = none ∨ v = some ("")))
  ∧ (!(pyTruthy (some ("False")))) = false
  ∧ ((mainRun cli cfg env).trace).filterMap validOf =
      List.replicate cfg.iter (!(pyTruthy cli.no_validate)) := by
  refine ⟨?_, by decide, ?_⟩
  · cases v with
    | none => simp [pyTruthy]
    | some s => simp [pyTruthy]
  · rw [mainRun_trace]
    simp [List.filterMap_append, setup_filterMap_valid, sm_filterMap_valid,
      mainLoopState, loop_filterMap_valid, parseArgs]

/-- C6: when --options is absent the loaded configuration is used
unmerged; when --options is supplied, every key it does not mention keeps
its value from the config file, and every key it does mention (with
distinct option keys, as a dictionary guarantees) ends up bound to the
supplied value. -/
theorem options_merge_frame (f o : List (String × Int)) (k k2 : String)
    (v : Int)
    (hk : ∀ p ∈ o, p.1 ≠ k)
    (hnd : (o.map Prod.fst).Nodup)
    (hv : (k2, v) ∈ o) :
    finalAssoc none f = f
  ∧ cfgGet (finalAssoc (some o) f) k = cfgGet f k
  ∧ cfgGet (finalAssoc (some o) f) k2 = some v :=
  ⟨rfl, mergeFromDict_not_mentioned k o f hk,
    mergeFromDict_mentioned k2 v o f hnd hv⟩

/-- C6 witness: merging a two-key file configuration with a one-key
options dictionary keeps the unmentioned key and overwrites the
mentioned one. -/
theorem options_merge_frame_w :
    finalAssoc none [(("lr" : String), (1 : Int)), ("iter", 5)] =
      [(("lr" : String), (1 : Int)), ("iter", 5)]
  ∧ cfgGet (finalAssoc (some [(("iter" : String), (7 : Int))])
      [(("lr" : String), (1 : Int)), ("iter", 5)]) ("lr") =
      cfgGet [(("lr" : String), (1 : Int)), ("iter", 5)] ("lr")
  ∧ cfgGet (finalAssoc (some [(("iter" : String), (7 : Int))])
      [(("lr" : String), (1 : Int)), ("iter", 5)]) ("iter") = some 7 :=
  options_merge_frame [(("lr" : String), (1 : Int)), ("iter", 5)]
    [(("iter" : String), (7 : Int))] ("lr") ("iter") 7
    (by decide) (by decide) (by decide)

/-- C1 (code bug): with two iterations whose overall accuracies are
0 and 0 while the average accuracies are 0 and 2, the printed AA line
carries the standard deviation of the OA list (here 0) instead of the
standard deviation of the AA list itself (here 1): source line 179
interpolates np.std(OA) under the label std_AA.  The AA mean, the OA
statistics, the kappa statistics and the element-wise statistics do
aggregate their own lists. -/
theorem aa_std_line_uses_oa_values :
    (mainRun exCli exCfg2 (exEnv exResBug)).OA = [0, 0]
  ∧ (mainRun exCli exCfg2 (exEnv exResBug)).AA = [0, 2]
  ∧ (mainRun exCli exCfg2 (exEnv exResBug)).summary.aa_mean = 1
  ∧ (mainRun exCli exCfg2 (exEnv exResBug)).summary.aa_std_sq = 0
  ∧ npVarQ ((mainRun exCli exCfg2 (exEnv exResBug)).AA) = 1
  ∧ (mainRun exCli exCfg2 (exEnv exResBug)).summary.aa_std_sq ≠
      npVarQ ((mainRun exCli exCfg2 (exEnv exResBug)).AA) := by
  have hOA : (mainRun exCli exCfg2 (exEnv exResBug)).OA = [0, 0] := rfl
  have hAA : (mainRun exCli exCfg2 (exEnv exResBug)).AA = [0, 2] := rfl
  have hOA2 : (mainLoopState exCli exCfg2 (exEnv exResBug)).OA = [0, 0] := rfl
  have hAA2 : (mainLoopState exCli exCfg2 (exEnv exResBug)).AA = [0, 2] := rfl
  have hvarOA : npVarQ [(0 : ℚ), 0] = 0 := by
    norm_num [npVarQ, npMeanQ]
  have hvarAA : npVarQ [(0 : ℚ), 2] = 1 := by
    norm_num [npVarQ, npMeanQ]
  have hmeanAA : npMeanQ [(0 : ℚ), 2] = 1 := by
    norm_num [npMeanQ]
  refine ⟨hOA, hAA, ?_, ?_, ?_, ?_⟩
  · show npMeanQ (mainLoopState exCli exCfg2 (exEnv exResBug)).AA = 1
    rw [hAA2]
    exact hmeanAA
  · show npVarQ (mainLoopState exCli exCfg2 (exEnv exResBug)).OA = 0
    rw [hOA2]
    exact hvarOA
  · rw [hAA]
    exact hvarAA
  · show npVarQ (mainLoopState exCli exCfg2 (exEnv exResBug)).OA ≠
      npVarQ (mainRun exCli exCfg2 (exEnv exResBug)).AA
    rw [hOA2, hAA, hvarOA, hvarAA]
    norm_num
